import Mathlib

/-!
Shallow embedding of the padt_api_server HTTP test-double (src/main.go).

The program serves three routes on a `net/http` `ServeMux`:
  "/"        -> `index`             (usage hint, 404 for unknown paths)
  "/healthz" -> `healthz`           (204/503 from an atomic health flag)
  "/padt"    -> `sendPadtResponse`  (file or embedded default, with the
                                     token "${PartyID}" substituted)
wrapped in two middlewares, `tracing` (X-Request-Id) and `logging`
(access log), plus a signal-driven shutdown goroutine toggling the flag.

The embedding models the `http.ResponseWriter` explicitly (headers set
after `WriteHeader` is called are not part of the committed response;
the first `Write` commits an implicit status 200), pure handlers as
functions on that writer state, per-request environment inputs (file
read result, UUID generation result) as `Option` values, and the
startup/shutdown flag stores as interleaved event traces.
-/

namespace Padt

/-- Model of Go's `http.ResponseWriter` from net/http: `headers` is the
mutable header map (`w.Header()`), `sentHeaders`/`status` are frozen at
the first `WriteHeader` call (`committed`), later `Header().Set` calls
do not change the response actually sent, and `Write` before any
`WriteHeader` commits an implicit status 200. Headers are kept as an
association list where `Set` prepends and lookup takes the first
(most recent) binding. -/
structure RW where
  committed : Bool
  status : Nat
  headers : List (String × String)
  sentHeaders : List (String × String)
  body : String

/-- A fresh response writer: nothing committed, empty headers and body. -/
def RW.init : RW :=
  { committed := false, status := 200, headers := [], sentHeaders := [], body := "" }

/-- Go `w.Header().Set(k, v)`: update the header map (most recent binding wins). -/
def RW.setHeader (w : RW) (k v : String) : RW :=
  { w with headers := (k, v) :: w.headers }

/-- Go `w.WriteHeader(code)`: commit the status and the current header map;
a second call is a no-op (Go logs "superfluous WriteHeader" and ignores it). -/
def RW.writeHeader (w : RW) (code : Nat) : RW :=
  if w.committed then w
  else { w with committed := true, status := code, sentHeaders := w.headers }

/-- Go `w.Write(...)`: commit an implicit 200 if not yet committed, then append
to the body. -/
def RW.write (w : RW) (s : String) : RW :=
  let w2 := w.writeHeader 200
  { w2 with body := w2.body ++ s }

/-- Header of the committed response, by name. -/
def RW.header (w : RW) (k : String) : Option String :=
  List.lookup k w.sentHeaders

/-- An incoming HTTP request, with the context value set by the tracing
middleware (`requestIDKey`) made explicit, and the result of reading
`r.Body` in the logging middleware modelled by `bodyReadErr`. -/
structure Request where
  method : String
  path : String
  headerXRequestId : String
  remoteAddr : String
  userAgent : String
  body : String
  bodyReadErr : Bool
  ctxRequestId : Option String

/-- Go's `http.Error` (net/http): sets Content-Type and
X-Content-Type-Options, writes the status, then `fmt.Fprintln` of the
message (hence the trailing newline). -/
def httpError (w : RW) (msg : String) (code : Nat) : RW :=
  let w := RW.setHeader w "Content-Type" "text/plain; charset=utf-8"
  let w := RW.setHeader w "X-Content-Type-Options" "nosniff"
  let w := RW.writeHeader w code
  RW.write w (msg ++ "\n")

/-- Handler for pattern "/" (src/main.go, `index`): any path other than
exactly "/" gets `http.Error(w, http.StatusText(404), 404)`; the root
path gets a plain-text usage hint written with `fmt.Fprintln`. -/
def index (r : Request) (w : RW) : RW :=
  if r.path ≠ "/" then
    httpError w "Not Found" 404
  else
    let w := RW.setHeader w "Content-Type" "text/plain; charset=utf-8"
    let w := RW.setHeader w "X-Content-Type-Options" "nosniff"
    let w := RW.writeHeader w 200
    RW.write w "use /padt as the URL to POST to\n"

/-- Handler for "/healthz" (src/main.go, `healthz`): 204 when the atomic
flag reads 1, else 503; no body is written in either case. The flag is a
Go `int32`, modelled as `Int`. -/
def healthz (healthy : Int) (w : RW) : RW :=
  if healthy = 1 then RW.writeHeader w 204
  else RW.writeHeader w 503

/-- Go's `strings.ReplaceAll(s, tok, rep)` on character lists: scan left
to right, replacing each leftmost non-overlapping occurrence of `tok`
and resuming after it. Structural recursion on a fuel bound (always
called with fuel `s.length`, which suffices since each step consumes at
least one character). The `tok ≠ []` guard matches the scan only ever
being run with the non-empty token "${PartyID}"; an empty pattern takes
the character-copy branch. -/
def replaceAllCharsAux : Nat → List Char → List Char → List Char → List Char
  | _, [], _, _ => []
  | 0, c :: rest, _, _ => c :: rest
  | n + 1, c :: rest, tok, rep =>
    if tok ≠ [] ∧ tok.isPrefixOf (c :: rest) then
      rep ++ replaceAllCharsAux n ((c :: rest).drop tok.length) tok rep
    else
      c :: replaceAllCharsAux n rest tok rep

/-- The replacement scan at its adequate fuel. -/
def replaceAllChars (s tok rep : List Char) : List Char :=
  replaceAllCharsAux s.length s tok rep

/-- Whether `tok` occurs as a contiguous run inside `s` (the occurrence
test underlying the scan; agrees with Go's `strings.Contains`). -/
def containsTok (s tok : List Char) : Bool :=
  match s with
  | [] => tok.isEmpty
  | c :: rest => tok.isPrefixOf (c :: rest) || containsTok rest tok

/-- The segments of `s` between the leftmost non-overlapping occurrences
of `tok`, in order (same scan as `replaceAllCharsAux`, same fuel
discipline): rejoining them with `tok` gives back `s`, and rejoining
them with a replacement is exactly what the scan produces. This is the
specification-side view of the substitution. -/
def splitOnTokAux : Nat → List Char → List Char → List (List Char)
  | _, [], _ => [[]]
  | 0, c :: rest, _ => [c :: rest]
  | n + 1, c :: rest, tok =>
    if tok ≠ [] ∧ tok.isPrefixOf (c :: rest) then
      [] :: splitOnTokAux n ((c :: rest).drop tok.length) tok
    else
      match splitOnTokAux n rest tok with
      | [] => [[c]]
      | p :: ps => (c :: p) :: ps

/-- The token-splitting scan at its adequate fuel. -/
def splitOnTok (s tok : List Char) : List (List Char) :=
  splitOnTokAux s.length s tok

/-- Join segments with a separator: `joinWith sep [p₁, …, pₙ]` is
`p₁ ++ sep ++ p₂ ++ sep ++ … ++ pₙ`. -/
def joinWith (sep : List Char) : List (List Char) → List Char
  | [] => []
  | [p] => p
  | p :: ps => p ++ sep ++ joinWith sep ps

/-- The replacement scan `strings.ReplaceAll` lifted back to `String`. -/
def replaceAllStr (s tok rep : String) : String :=
  String.mk (replaceAllChars s.toList tok.toList rep.toList)

/-- The placeholder token substituted by the /padt handler
(src/main.go line 136). -/
def partyToken : String := "${PartyID}"

/-- The `if err == nil` substitution step of `sendPadtResponse`
(src/main.go lines 134-137): the result of `uuid.NewRandom()` is
modelled as `Option String` (`some id` when `err == nil`); on failure
the content is served unchanged. -/
def substitutePartyId (content : String) (uuidRes : Option String) : String :=
  match uuidRes with
  | some partyId => replaceAllStr content partyToken partyId
  | none => content

/-- The embedded default payload (src/main.go, `getDefaultResponse`),
served when the configured file cannot be read. -/
def getDefaultResponse : String :=
  "<?xml version=\"1.0\" encoding=\"UTF-8\" standalone=\"yes\"?>\n<ManagePartyResponse xmlns=\"urn:inputoutput.wm.ms.com\" xmlns:ns6=\"urn:group.accounts.wm.ms.com\" xmlns:ns5=\"urn:user.wm.ms.com\" xmlns:ns8=\"urn:edd.wm.ms.com\" xmlns:ns7=\"urn:accounts.wm.ms.com\" xmlns:ns9=\"urn:partyext.wm.ms.com\" xmlns:ns11=\"urn:products.wm.ms.com\" xmlns:ns10=\"urn:operation.wm.ms.com\" xmlns:ns2=\"urn:basetypes.wm.ms.com\" xmlns:ns4=\"urn:Common.wm.ms.com\" xmlns:ns3=\"urn:party.wm.ms.com\">\n    <Parties>\n        <Party>\n            <ns9:Party>\n                <ns3:PartyId>\n                    <ns2:ID>3209601986633|9WW</ns2:ID>\n                    <ns2:IDType>\n                        <ns2:Code>CES</ns2:Code>\n                        <ns2:Value>CES</ns2:Value>\n                    </ns2:IDType>\n                </ns3:PartyId>\n                <ns3:PartyId>\n                    <ns2:ID>0607076334</ns2:ID>\n                    <ns2:IDType>\n                        <ns2:Code>PMH</ns2:Code>\n                    </ns2:IDType>\n                </ns3:PartyId>\n                <ns3:PartyType>\n                    <ns2:Code>I</ns2:Code>\n                    <ns2:Value>Individual</ns2:Value>\n                </ns3:PartyType>\n                <ns3:RelationshipType>\n                    <ns2:Code>P</ns2:Code>\n                    <ns2:Value>Prospect</ns2:Value>\n                </ns3:RelationshipType>\n                <ns3:NameInfo>\n                    <ns2:FirstName>LALA</ns2:FirstName>\n                    <ns2:LastName>SMITH</ns2:LastName>\n                    <ns2:IsInvalidName>false</ns2:IsInvalidName>\n                </ns3:NameInfo>\n                <ns3:Tax>\n                    <ns2:TaxType>\n                        <ns2:Code>S</ns2:Code>\n                        <ns2:Value>SSN</ns2:Value>\n                    </ns2:TaxType>\n                    <ns2:TaxId>765712215</ns2:TaxId>\n                    <ns2:IsInvalidTaxId>false</ns2:IsInvalidTaxId>\n                </ns3:Tax>\n                <ns3:Individual>\n                    <ns2:DateOfBirth>1983-04-22</ns2:DateOfBirth>\n                    <ns2:IsInvalidDateOfBirth>false</ns2:IsInvalidDateOfBirth>\n                </ns3:Individual>\n                <ns3:Contact>\n                    <ns2:ContactAddress>\n                        <ns2:Address TxType=\"C\">\n                            <ns2:AddressRowid>4140026</ns2:AddressRowid>\n                            <ns2:AddressRelRowid>1LGL</ns2:AddressRelRowid>\n                            <ns2:AddressId>A05001855978</ns2:AddressId>\n                            <ns2:AddressType>\n                                <ns2:Code>LGL</ns2:Code>\n                                <ns2:Value>Client Legal Address</ns2:Value>\n                            </ns2:AddressType>\n                            <ns2:StreetAddress1>Mysore Rd, Opp Bhel, Nayandanahalli</ns2:StreetAddress1>\n                            <ns2:City>Bangalore</ns2:City>\n                            <ns2:PostalCode>560039</ns2:PostalCode>\n                            <ns2:Country>\n                                <ns2:Code>IND</ns2:Code>\n                            </ns2:Country>\n                            <ns2:ForeignAddress>\n                                <ns2:Code>FRN</ns2:Code>\n                            </ns2:ForeignAddress>\n                            <ns2:IsValid>true</ns2:IsValid>\n                        </ns2:Address>\n                        <ns2:VanityAddress>\n                            <ns2:StreetAddress1>Mysore Rd, Opp Bhel, Nayandanahalli</ns2:StreetAddress1>\n                            <ns2:City>Bangalore</ns2:City>\n                            <ns2:Postal>560039</ns2:Postal>\n                            <ns2:Country>\n                                <ns2:Code>IND</ns2:Code>\n                                <ns2:Value>INDIA</ns2:Value>\n                            </ns2:Country>\n                        </ns2:VanityAddress>\n                    </ns2:ContactAddress>\n                    <ns2:Telephone TxType=\"C\">\n                        <ns2:TelephoneRowid>1740042</ns2:TelephoneRowid>\n                        <ns2:PhoneRelRowid>1CELL</ns2:PhoneRelRowid>\n                        <ns2:TelephoneId>T05000622214</ns2:TelephoneId>\n                        <ns2:PhoneNumber>+91-9872710627</ns2:PhoneNumber>\n                        <ns2:PhoneType>\n                            <ns2:Code>CELL</ns2:Code>\n                            <ns2:Value>Mobile Phone</ns2:Value>\n                        </ns2:PhoneType>\n                        <ns2:AuditData/>\n                    </ns2:Telephone>\n                    <ns2:ElectronicAddress TxType=\"C\">\n                        <ns2:ElectronicAddressRowid>1000071</ns2:ElectronicAddressRowid>\n                        <ns2:ElectronicRelRowid>1HOMEML</ns2:ElectronicRelRowid>\n                        <ns2:ElectronicAddressId>E05000384759</ns2:ElectronicAddressId>\n                        <ns2:ElectronicAddress>lala.smith@sso.com</ns2:ElectronicAddress>\n                        <ns2:ElectronicAddressMethod>\n                            <ns2:Code>EMAIL</ns2:Code>\n                            <ns2:Value>Email</ns2:Value>\n                        </ns2:ElectronicAddressMethod>\n                        <ns2:ElectronicAddressType>\n                            <ns2:Code>HOMEML</ns2:Code>\n                            <ns2:Value>Home Email</ns2:Value>\n                        </ns2:ElectronicAddressType>\n                    </ns2:ElectronicAddress>\n                </ns3:Contact>\n                <ns3:IsTestParty>false</ns3:IsTestParty>\n                <ns3:AdditionalInfo>\n                    <ns2:Code>EDBSync</ns2:Code>\n                    <ns2:Value>N</ns2:Value>\n                </ns3:AdditionalInfo>\n                <ns3:AdditionalInfo>\n                    <ns2:Code>MATCH_STA</ns2:Code>\n                    <ns2:Value>NOT-MATCHED</ns2:Value>\n                </ns3:AdditionalInfo>\n                <ns3:AdditionalInfo>\n                    <ns2:Code>CoreDataUpdate</ns2:Code>\n                    <ns2:Value>Yes</ns2:Value>\n                </ns3:AdditionalInfo>\n                <ns3:AdditionalInfo>\n                    <ns2:Code>Created</ns2:Code>\n                    <ns2:Value>Prospect</ns2:Value>\n                </ns3:AdditionalInfo>\n                <ns3:AdditionalInfo>\n                    <ns2:Code>isCodeTranslationRequired</ns2:Code>\n                    <ns2:Value>true</ns2:Value>\n                </ns3:AdditionalInfo>\n                <ns3:AdditionalInfo>\n                    <ns2:Code>APPTYPE</ns2:Code>\n                    <ns2:Value>00</ns2:Value>\n                </ns3:AdditionalInfo>\n                <ns3:ChannelType>\n                    <ns2:Code>PRODUCT_CODE</ns2:Code>\n                    <ns2:Value>SDB</ns2:Value>\n                </ns3:ChannelType>\n                <ns3:ChannelType>\n                    <ns2:Code>MSA</ns2:Code>\n                    <ns2:Value>Y</ns2:Value>\n                </ns3:ChannelType>\n                <ns3:PlanParticipation>\n                    <ns2:Identifier>\n                        <ns2:ID>9WW</ns2:ID>\n                        <ns2:IDType>CORP_ID</ns2:IDType>\n                    </ns2:Identifier>\n                    <ns2:FA/>\n                    <ns2:SourceApplicationCode>\n                        <ns2:Code>CS-SN</ns2:Code>\n                        <ns2:Value>Corporate Solution Solium Native</ns2:Value>\n                    </ns2:SourceApplicationCode>\n                </ns3:PlanParticipation>\n            </ns9:Party>\n        </Party>\n    </Parties>\n    <TransactionInfo>\n        <ns10:EventCorrelationId>4f04baaf-a355-4d4a-945e-54997f5c8594</ns10:EventCorrelationId>\n        <ns10:EventTimeStamp>2021-09-21T08:28:40.351-04:00</ns10:EventTimeStamp>\n        <ns10:EventSource>SHAREWORKS_IDP</ns10:EventSource>\n        <ns10:EventName>PROSPECT.ADD</ns10:EventName>\n        <ns10:TransactionActionType>MANAGE_PROSPECT Call from SHAREWORKS</ns10:TransactionActionType>\n        <ns10:TransactionSource>CES</ns10:TransactionSource>\n        <ns10:TransactionTimeStamp>2021-09-21T08:28:40.351-04:00</ns10:TransactionTimeStamp>\n        <ns10:TransactionUser>SUM_Shareworks</ns10:TransactionUser>\n        <ns10:TransactionProgram>SHAREWORKS_IDP</ns10:TransactionProgram>\n        <ns10:UseCaseNumber>IDP</ns10:UseCaseNumber>\n    </TransactionInfo>\n    <StatusInfo>\n        <ns10:Code>000</ns10:Code>\n        <ns10:TechnicalDescription>CreateParty Success</ns10:TechnicalDescription>\n        <ns10:BusinessDescription>SUCCESS</ns10:BusinessDescription>\n        <ns10:Retryable>false</ns10:Retryable>\n    </StatusInfo>\n</ManagePartyResponse>\n"

/-- Handler for "/padt" (src/main.go, `sendPadtResponse`). Per-request
environment inputs: `fileRead` is the result of
`ioutil.ReadFile(file)` (`some content` on success), `uuidRes` the
result of `uuid.NewRandom()` (`some id` when `err == nil`). On a read
failure the handler writes status 500 and an explanatory message
*into the response* before falling back to the embedded default; the
`Content-Type: application/xml` header is set only after that
`WriteHeader`, so in the failure case it is not part of the committed
headers. The `debug` block only prints to stdout (its `ReadAll` error
is discarded) and does not touch the response, so it is not modelled. -/
def sendPadtResponse (filePath : String) (fileRead : Option String)
    (uuidRes : Option String) (w : RW) : RW :=
  let readStep : RW × String :=
    match fileRead with
    | some content => (w, content)
    | none =>
      let w1 := RW.writeHeader w 500
      let w2 := RW.write w1 ("Unable to read " ++ filePath ++ "\nServing default response\n")
      (w2, getDefaultResponse)
  let w := readStep.1
  let fileContent := substitutePartyId readStep.2 uuidRes
  let w := RW.setHeader w "Content-Type" "application/xml"
  RW.write w fileContent

/-- Per-request environment of the server: the health flag value, the
`-file` flag, and the outcomes of the two fallible operations. -/
structure Env where
  healthy : Int
  filePath : String
  fileRead : Option String
  uuidRes : Option String

/-- Server-side state threaded through the middleware chain: the
response writer plus the lines printed by the access logger. -/
structure ServerState where
  w : RW
  log : List String

/-- Initial state: fresh writer, empty log. -/
def ServerState.init : ServerState := { w := RW.init, log := [] }

/-- The type of a wrapped `http.Handler` in the middleware chain. -/
def Handler : Type := Request → ServerState → ServerState

/-- Pattern dispatch of the `http.NewServeMux` of `main` (src/main.go
lines 42-45, `ServeMux.handler`): exact patterns "/healthz" and
"/padt", and the subtree pattern "/" catching every other path via
`index`. Path canonicalization happens before this step, in
`serveMux`. -/
def routerH (env : Env) : Handler := fun r s =>
  if r.path = "/healthz" then { s with w := healthz env.healthy s.w }
  else if r.path = "/padt" then
    { s with w := sendPadtResponse env.filePath env.fileRead env.uuidRes s.w }
  else { s with w := index r s.w }

/-- Split a character list at every '/' (the path's segments; empty
segments for doubled or leading slashes). -/
def splitSlash : List Char → List (List Char)
  | [] => [[]]
  | c :: rest =>
    if c = '/' then [] :: splitSlash rest
    else
      match splitSlash rest with
      | [] => [[c]]
      | p :: ps => (c :: p) :: ps

/-- The segment processing of Go `path.Clean` for rooted paths: empty
and "." segments vanish, ".." pops the previous segment (or vanishes at
the root, since the path is rooted), anything else is kept. -/
def cleanSegments (segs : List (List Char)) : List (List Char) :=
  segs.foldl
    (fun acc seg =>
      if seg = [] ∨ seg = ['.'] then acc
      else if seg = ['.', '.'] then acc.dropLast
      else acc ++ [seg])
    []

/-- Go `path.Clean` restricted to rooted paths (the only inputs
net/http's `cleanPath` hands it): the cleaned segments rejoined with
slashes under a leading slash. -/
def pathClean (p : List Char) : List Char :=
  '/' :: joinWith ['/'] (cleanSegments (splitSlash p))

/-- Go net/http `cleanPath`: empty becomes "/", a missing leading slash
is prepended, then `path.Clean`, and a trailing slash removed by Clean
is restored (except at the root). -/
def cleanPath (p : List Char) : List Char :=
  match p with
  | [] => ['/']
  | c :: rest =>
    let p1 := if c = '/' then c :: rest else '/' :: c :: rest
    let np := pathClean p1
    if p1.getLast? = some '/' ∧ np ≠ ['/'] then np ++ ['/'] else np

/-- Go net/http `cleanPath` lifted to `String`. -/
def cleanPathStr (p : String) : String := String.mk (cleanPath p.toList)

/-- Go's `http.RedirectHandler(url, 301)` as returned by
`ServeMux.Handler`, i.e. `http.Redirect`: set the Location header,
and — since this server never sets Content-Type before the mux runs,
and only for GET requests — a text/html Content-Type and a short HTML
body (written with `fmt.Fprintln`, hence the extra newline); commit
status 301. The URL here is the cleaned path; Go additionally applies
`URL.String()` percent-escaping, `hexEscapeNonASCII` (Location) and
`htmlEscape` (body), all of which are the identity on ASCII paths free
of escapable characters, and are modelled as such. -/
def redirectHandler (url : String) (r : Request) (w : RW) : RW :=
  let w := RW.setHeader w "Location" url
  let w :=
    if r.method = "GET" then RW.setHeader w "Content-Type" "text/html; charset=utf-8" else w
  let w := RW.writeHeader w 301
  if r.method = "GET" then
    RW.write w ("<a href=\"" ++ url ++ "\">Moved Permanently</a>.\n\n")
  else w

/-- Go `ServeMux.Handler`: CONNECT requests are dispatched on their
path as received; every other request has its path cleaned first, and
when cleaning changes the path the mux answers with a 301
`RedirectHandler` to the cleaned path instead of dispatching. (The
`/tree` → `/tree/` slash-redirect of `redirectToPathSlash` never fires
for this server's patterns "/", "/healthz", "/padt", since no pattern
of the form `p ++ "/"` with non-empty `p` is registered; the query
string, appended unchanged to the redirect target, is not modelled.) -/
def serveMux (env : Env) : Handler := fun r s =>
  if r.method = "CONNECT" then routerH env r s
  else if cleanPathStr r.path ≠ r.path then
    { s with w := redirectHandler (cleanPathStr r.path) r s.w }
  else routerH env r s

/-- The `logging` middleware (src/main.go lines 144-166): runs the inner
handler, then (in the deferred block) logs the request id from the
context (or "unknown"), the method, path, remote address and user
agent, and — when reading the body succeeded with more than zero
bytes — the body between dashed separators. It never touches the
response writer. -/
def logging (next : Handler) : Handler := fun r s =>
  let s2 := next r s
  let requestID := Option.getD r.ctxRequestId "unknown"
  let s3 := { s2 with
    log := s2.log ++
      [requestID ++ " " ++ r.method ++ " " ++ r.path ++ " " ++ r.remoteAddr ++ " " ++ r.userAgent] }
  if r.bodyReadErr = false ∧ r.body ≠ "" then
    { s3 with log := s3.log ++ ["-----------------", r.body, "-----------------"] }
  else s3

/-- The `tracing` middleware (src/main.go lines 168-180): take the
incoming X-Request-Id header, or generate a fresh id when it is empty;
store it in the request context, set it as a response header (before
the inner handler runs, so it is part of the committed headers), and
run the inner handler on the tagged request. -/
def tracing (fresh : String) (next : Handler) : Handler := fun r s =>
  let requestID := if r.headerXRequestId = "" then fresh else r.headerXRequestId
  let r2 := { r with ctxRequestId := some requestID }
  let s2 := { s with w := RW.setHeader s.w "X-Request-Id" requestID }
  next r2 s2

/-- The generator `nextRequestID` from `main` (src/main.go lines 47-49): the decimal
rendering of `time.Now().UnixNano()`. -/
def nextRequestID (nano : Nat) : String := toString nano

/-- The full handler chain of the server
(`tracing(nextRequestID)(logging(logger)(router))`, src/main.go
line 53), with the router's `ServeHTTP` going through
`ServeMux.Handler` (`serveMux`). -/
def app (env : Env) (fresh : String) : Handler :=
  tracing fresh (logging (serveMux env))

/-- Events relevant to the health flag in `main` (src/main.go lines
60-87): `sig` is the receipt of `os.Interrupt` on the `quit` channel,
`store0` the goroutine's `atomic.StoreInt32(&healthy, 0)` (line 67),
`store1` the main goroutine's `atomic.StoreInt32(&healthy, 1)`
(line 80). -/
inductive Ev where
  | sig
  | store0
  | store1
deriving DecidableEq

/-- The flag operations of the main goroutine, in program order:
`signal.Notify` is installed and the shutdown goroutine started before
the single store of 1 that precedes `ListenAndServe`. -/
def mainFlagOps : List Ev := [Ev.store1]

/-- The flag operations of the shutdown goroutine, in program order: it
blocks on the quit channel (`sig`), then stores 0. -/
def shutdownFlagOps : List Ev := [Ev.sig, Ev.store0]

/-- All interleavings of two sequential event lists, each keeping its
own program order, by structural recursion on a fuel bound (always
called with fuel `xs.length + ys.length`, which suffices). -/
def interleavingsAux {α : Type} : Nat → List α → List α → List (List α)
  | _, [], ys => [ys]
  | _, x :: xs, [] => [x :: xs]
  | 0, _ :: _, _ :: _ => []
  | n + 1, x :: xs, y :: ys =>
    (interleavingsAux n xs (y :: ys)).map (fun t => x :: t) ++
    (interleavingsAux n (x :: xs) ys).map (fun t => y :: t)

/-- The admissible schedules of two sequential goroutines: every
interleaving of the two event lists that keeps each one's program
order. -/
def interleavings {α : Type} (xs ys : List α) : List (List α) :=
  interleavingsAux (xs.length + ys.length) xs ys

/-- The health flag after a trace: zero-initialised (Go zero value of
`healthy int32`), updated by the two stores. -/
def flagAfter (t : List Ev) : Int :=
  t.foldl (fun f e =>
    match e with
    | Ev.sig => f
    | Ev.store0 => 0
    | Ev.store1 => 1) 0

/-- What `healthz` answers when the flag holds a given value. -/
def healthzStatus (flag : Int) : Nat := (healthz flag RW.init).status

/-- The first event scheduled after the shutdown signal is received. -/
def firstAfterSig : List Ev → Option Ev
  | [] => none
  | Ev.sig :: rest => rest.head?
  | _ :: rest => firstAfterSig rest

/-- Whether the flag is stored to 1 at some point after the shutdown
signal has been received. -/
def storeOneAfterSig : List Ev → Bool
  | [] => false
  | Ev.sig :: rest => rest.contains Ev.store1
  | _ :: rest => storeOneAfterSig rest

/-- The lifecycle property claimed for the health flag, over every
prefix of a trace: 503 before serving begins (no `store1` yet), 204
once serving began and no signal received, 503 again once the
post-signal store has run; moreover the first event after the signal
is the store of 0, and the flag is never stored to 1 after the signal. -/
def goodTemporal (t : List Ev) : Bool :=
  (t.inits.all fun p =>
    (p.contains Ev.store1 || (healthzStatus (flagAfter p) == 503)) &&
    (!(p.contains Ev.store1 && !(p.contains Ev.sig)) || (healthzStatus (flagAfter p) == 204)) &&
    (!(p.contains Ev.sig && p.contains Ev.store0) || (healthzStatus (flagAfter p) == 503))) &&
  (firstAfterSig t == some Ev.store0) &&
  (storeOneAfterSig t == false)

/-- The lower-case hexadecimal digits, as used by `encoding/hex`
(the encoder behind `uuid.UUID.String()`). -/
def hexTable : List Char := "0123456789abcdef".toList

/-- Hex digit of the low nibble of `n`. -/
def hexDigit (n : Nat) : Char := hexTable.getD (n % 16) '0'

/-- The two hex characters of one byte, high nibble first. -/
def byteHexChars (b : Nat) : List Char := [hexDigit (b / 16), hexDigit b]

/-- Modelled from the external dependency github.com/google/uuid (not
part of src/): `uuid.NewRandom()` fills 16 bytes from `crypto/rand`,
then forces the version nibble (`uuid[6] = (uuid[6] & 0x0f) | 0x40`)
and the variant bits (`uuid[8] = (uuid[8] & 0x3f) | 0x80`), and
`String()` renders the bytes as lower-case hex in 8-4-4-4-12 groups
separated by dashes. The 16 random bytes are the parameters. -/
def uuidNewRandomString (b0 b1 b2 b3 b4 b5 b6 b7 b8 b9 b10 b11 b12 b13 b14 b15 : Fin 256) :
    String :=
  String.mk
    (byteHexChars b0.val ++ byteHexChars b1.val ++ byteHexChars b2.val ++
      byteHexChars b3.val ++ ['-'] ++
      byteHexChars b4.val ++ byteHexChars b5.val ++ ['-'] ++
      byteHexChars ((b6.val &&& 15) ||| 64) ++ byteHexChars b7.val ++ ['-'] ++
      byteHexChars ((b8.val &&& 63) ||| 128) ++ byteHexChars b9.val ++ ['-'] ++
      byteHexChars b10.val ++ byteHexChars b11.val ++ byteHexChars b12.val ++
      byteHexChars b13.val ++ byteHexChars b14.val ++ byteHexChars b15.val)

/-- Whether a character is a lower-case hexadecimal digit. -/
def isHexChar (c : Char) : Bool := hexTable.contains c

/-- The positions of a canonical UUID string that hold plain hex digits
(everything except the four dashes, the version digit 14 and the
variant digit 19). -/
def uuidHexPositions : List Nat :=
  [0, 1, 2, 3, 4, 5, 6, 7, 9, 10, 11, 12, 15, 16, 17, 20, 21, 22,
   24, 25, 26, 27, 28, 29, 30, 31, 32, 33, 34, 35]

/-- Syntactic validity of a version-4 UUID string: 36 characters,
dashes at positions 8, 13, 18 and 23, the character '4' at position 14
(the version nibble), one of '8', '9', 'a', 'b' at position 19 (the
RFC 4122 variant), and hex digits everywhere else. -/
def isValidUUIDv4 (s : String) : Bool :=
  let l := s.toList
  (l.length == 36) &&
  (l.getD 8 ' ' == '-') && (l.getD 13 ' ' == '-') &&
  (l.getD 18 ' ' == '-') && (l.getD 23 ' ' == '-') &&
  (l.getD 14 ' ' == '4') &&
  (l.getD 19 ' ' == '8' || l.getD 19 ' ' == '9' ||
    l.getD 19 ' ' == 'a' || l.getD 19 ' ' == 'b') &&
  (uuidHexPositions.all fun i => isHexChar (l.getD i ' '))

/-- C3: For every request to "/healthz", the handler returns HTTP status
204 when the health flag equals 1 and HTTP status 503 when it does not,
writing no response body in either case. -/
theorem healthz_status_spec (healthy : Int) :
    ((healthz healthy RW.init).status = if healthy = 1 then 204 else 503) ∧
    (healthz healthy RW.init).body = "" ∧
    (healthz healthy RW.init).committed = true := by
  by_cases h : healthy = 1 <;>
    simp [healthz, RW.writeHeader, RW.init, h]

/-- C7: For every request whose path is exactly "/" (in particular every
GET request), the `index` handler responds with status 200, Content-Type
"text/plain; charset=utf-8", and the body
"use /padt as the URL to POST to" followed by a newline. -/
theorem index_root_response (r : Request) (h : r.path = "/") :
    (index r RW.init).status = 200 ∧
    (index r RW.init).header "Content-Type" = some "text/plain; charset=utf-8" ∧
    (index r RW.init).body = "use /padt as the URL to POST to\n" := by
  simp [index, h, httpError, RW.setHeader, RW.writeHeader, RW.write, RW.init, RW.header]
  decide

/-- Witness for `index_root_response` at a concrete GET request. -/
theorem index_root_response_witness :
    (index { method := "GET", path := "/", headerXRequestId := "", remoteAddr := "",
             userAgent := "", body := "", bodyReadErr := false, ctxRequestId := none }
      RW.init).status = 200 :=
  (index_root_response _ rfl).1

/-- C8 counterexample, in two parts. At the canonical unknown path
"/foo" the root handler does respond 404, but the body is "Not Found"
followed by a newline (written by `fmt.Fprintln` inside `http.Error`),
not the exact string "Not Found" the claim states. And the unknown
path "/a//b" is not dispatched to the root handler at all: the mux
cleans it to "/a/b" and answers 301 Moved Permanently with a Location
header, so `index` never runs. -/
theorem unknown_path_body_not_exact :
    ((index { method := "GET", path := "/foo", headerXRequestId := "", remoteAddr := "",
              userAgent := "", body := "", bodyReadErr := false, ctxRequestId := none }
       RW.init).status = 404 ∧
     (index { method := "GET", path := "/foo", headerXRequestId := "", remoteAddr := "",
              userAgent := "", body := "", bodyReadErr := false, ctxRequestId := none }
       RW.init).body = "Not Found\n" ∧
     (index { method := "GET", path := "/foo", headerXRequestId := "", remoteAddr := "",
              userAgent := "", body := "", bodyReadErr := false, ctxRequestId := none }
       RW.init).body ≠ "Not Found") ∧
    ((serveMux { healthy := 1, filePath := "f", fileRead := none, uuidRes := none }
        { method := "GET", path := "/a//b", headerXRequestId := "", remoteAddr := "",
          userAgent := "", body := "", bodyReadErr := false, ctxRequestId := none }
        ServerState.init).w.status = 301 ∧
     (serveMux { healthy := 1, filePath := "f", fileRead := none, uuidRes := none }
        { method := "GET", path := "/a//b", headerXRequestId := "", remoteAddr := "",
          userAgent := "", body := "", bodyReadErr := false, ctxRequestId := none }
        ServerState.init).w.header "Location" = some "/a/b" ∧
     (301 : Nat) ≠ 404) := by
  refine ⟨⟨rfl, rfl, ?_⟩, ?_, ?_, ?_⟩ <;> decide

/-- C8 (amended): every request whose path is already canonical (mux
path cleaning leaves it unchanged) and is none of "/", "/healthz" and
"/padt" is dispatched to the root handler `index`, which responds with
status 404 and the body "Not Found" followed by a newline; a
non-CONNECT request whose path is not canonical is answered by the mux
with a 301 redirect to the cleaned path and reaches no handler, while
a CONNECT request is dispatched on its path as received, so an unknown
CONNECT path also gets the root handler's 404. In no case does an
unknown path reach the file-serving or health logic. -/
theorem unknown_path_404 (env : Env) (r : Request)
    (h1 : r.path ≠ "/") (h2 : r.path ≠ "/healthz") (h3 : r.path ≠ "/padt") :
    (cleanPathStr r.path = r.path →
      (∀ s, serveMux env r s = { s with w := index r s.w }) ∧
      (index r RW.init).status = 404 ∧
      (index r RW.init).body = "Not Found\n") ∧
    (cleanPathStr r.path ≠ r.path → r.method ≠ "CONNECT" →
      (∀ s, serveMux env r s = { s with w := redirectHandler (cleanPathStr r.path) r s.w }) ∧
      (redirectHandler (cleanPathStr r.path) r RW.init).status = 301) ∧
    (cleanPathStr r.path ≠ r.path → r.method = "CONNECT" →
      (∀ s, serveMux env r s = { s with w := index r s.w }) ∧
      (index r RW.init).status = 404) := by
  refine ⟨fun hcl => ⟨fun s => ?_, ?_, ?_⟩, fun hcl hcn => ⟨fun s => ?_, ?_⟩,
    fun hcl hcn => ⟨fun s => ?_, ?_⟩⟩
  · by_cases hc : r.method = "CONNECT" <;> simp [serveMux, routerH, hc, hcl, h2, h3]
  · simp [index, h1, httpError, RW.setHeader, RW.writeHeader, RW.write, RW.init]
  · simp [index, h1, httpError, RW.setHeader, RW.writeHeader, RW.write, RW.init]
  · simp [serveMux, hcl, hcn]
  · by_cases hg : r.method = "GET" <;>
      simp [redirectHandler, hg, RW.setHeader, RW.writeHeader, RW.write, RW.init]
  · simp [serveMux, routerH, hcn, h2, h3]
  · simp [index, h1, httpError, RW.setHeader, RW.writeHeader, RW.write, RW.init]

/-- Witness for `unknown_path_404`: the canonical clause at "/foo" and
the redirect clause at "/a//b". -/
theorem unknown_path_404_witness :
    (index { method := "GET", path := "/foo", headerXRequestId := "", remoteAddr := "",
             userAgent := "", body := "", bodyReadErr := false, ctxRequestId := none }
      RW.init).status = 404 ∧
    (redirectHandler
      (cleanPathStr "/a//b")
      { method := "GET", path := "/a//b", headerXRequestId := "", remoteAddr := "",
        userAgent := "", body := "", bodyReadErr := false, ctxRequestId := none }
      RW.init).status = 301 :=
  ⟨((unknown_path_404 { healthy := 1, filePath := "f", fileRead := none, uuidRes := none }
      { method := "GET", path := "/foo", headerXRequestId := "", remoteAddr := "",
        userAgent := "", body := "", bodyReadErr := false, ctxRequestId := none }
      (by decide) (by decide) (by decide)).1 (by decide)).2.1,
   ((unknown_path_404 { healthy := 1, filePath := "f", fileRead := none, uuidRes := none }
      { method := "GET", path := "/a//b", headerXRequestId := "", remoteAddr := "",
        userAgent := "", body := "", bodyReadErr := false, ctxRequestId := none }
      (by decide) (by decide) (by decide)).2.1 (by decide) (by decide)).2⟩

/-- C1 counterexample: when the configured file cannot be read, the
/padt response is not the substituted document alone served as
application/xml — the handler calls `WriteHeader(500)` before the
`Content-Type` header is set, so the committed response carries no
Content-Type header at all (and its body starts with the error
message, not the document). -/
theorem padt_read_failure_missing_xml_content_type :
    (sendPadtResponse "padt_response_file.xml" none (some "id") RW.init).header "Content-Type"
        ≠ some "application/xml" ∧
    (sendPadtResponse "padt_response_file.xml" none (some "id") RW.init).header "Content-Type"
        = none := by
  constructor
  · intro h
    exact Option.noConfusion ((rfl : (sendPadtResponse "padt_response_file.xml" none
      (some "id") RW.init).header "Content-Type" = none) ▸ h)
  · rfl

/-- C1 (amended): on a successful read the /padt handler responds with
status 200, Content-Type application/xml, and exactly the file contents
with the placeholder substituted (substitution happens when identifier
generation succeeds); when the read fails it responds with status 500,
no Content-Type header, and the error message
"Unable to read <path>\nServing default response\n" followed by the
substituted embedded default document. -/
theorem padt_response_characterization (fp content : String) (u : Option String) :
    ((sendPadtResponse fp (some content) u RW.init).status = 200 ∧
     (sendPadtResponse fp (some content) u RW.init).header "Content-Type"
        = some "application/xml" ∧
     (sendPadtResponse fp (some content) u RW.init).body = substitutePartyId content u) ∧
    ((sendPadtResponse fp none u RW.init).status = 500 ∧
     (sendPadtResponse fp none u RW.init).header "Content-Type" = none ∧
     (sendPadtResponse fp none u RW.init).body =
       "Unable to read " ++ fp ++ "\nServing default response\n"
         ++ substitutePartyId getDefaultResponse u) :=
  ⟨⟨rfl, rfl, rfl⟩, ⟨rfl, rfl, rfl⟩⟩

/-- C2 counterexample: a failed file read is not reported "only as a
logged warning" — the handler contains no logger call at all and
instead reports the failure in the response itself, committing HTTP
status 500 (a success-path request commits 200). -/
theorem padt_read_failure_visible_in_response :
    (sendPadtResponse "padt_response_file.xml" none (some "id") RW.init).status = 500 ∧
    (sendPadtResponse "padt_response_file.xml" (some "<x/>") (some "id") RW.init).status = 200 ∧
    (500 : Nat) ≠ 200 := by
  exact ⟨rfl, rfl, by decide⟩

/-- C2 (amended): if reading the configured file fails, the /padt
handler serves the embedded default payload as fallback content, but
the failure is reported in the response itself — status 500 and the
message "Unable to read <path>\nServing default response\n" prefixed
to the body — not as a logged warning; the handler still completes and
commits a response for that request. -/
theorem padt_read_failure_fallback (fp : String) (u : Option String) :
    (sendPadtResponse fp none u RW.init).status = 500 ∧
    (sendPadtResponse fp none u RW.init).body =
      "Unable to read " ++ fp ++ "\nServing default response\n"
        ++ substitutePartyId getDefaultResponse u ∧
    (sendPadtResponse fp none u RW.init).committed = true :=
  ⟨rfl, rfl, rfl⟩

/-- C5 counterexample: the schedule in which the interrupt arrives
before `main` reaches its store of 1 is an admissible interleaving of
the two goroutines (`signal.Notify` runs before the store on line 80,
and nothing synchronises the two stores); in it the flag is set to 1
*after* shutdown has begun, ending at 1 with /healthz answering 204. -/
theorem health_flag_race_trace :
    [Ev.sig, Ev.store0, Ev.store1] ∈ interleavings mainFlagOps shutdownFlagOps ∧
    storeOneAfterSig [Ev.sig, Ev.store0, Ev.store1] = true ∧
    flagAfter [Ev.sig, Ev.store0, Ev.store1] = 1 ∧
    healthzStatus (flagAfter [Ev.sig, Ev.store0, Ev.store1]) = 204 := by
  decide

/-- C5 (amended): in every admissible interleaving of the main
goroutine's flag store and the shutdown goroutine, *provided the
shutdown signal is received only after serving has begun* (no store of
1 after the signal), the health flag is 0 — /healthz answers 503 —
from process start until serving begins, 1 — /healthz answers 204 —
from then until the signal, and the first action after the signal is
the store of 0, after which /healthz answers 503 and the flag is never
set to 1 again. Without that proviso the property fails
(`health_flag_race_trace`). -/
theorem health_flag_lifecycle (t : List Ev)
    (h1 : t ∈ interleavings mainFlagOps shutdownFlagOps)
    (h2 : storeOneAfterSig t = false) :
    goodTemporal t = true := by
  have h4 : t ∈ ([[Ev.store1, Ev.sig, Ev.store0], [Ev.sig, Ev.store1, Ev.store0],
      [Ev.sig, Ev.store0, Ev.store1]] : List (List Ev)) := h1
  have h3 : t = [Ev.store1, Ev.sig, Ev.store0] ∨ t = [Ev.sig, Ev.store1, Ev.store0] ∨
      t = [Ev.sig, Ev.store0, Ev.store1] := by simpa using h4
  rcases h3 with h | h | h <;> subst h <;> revert h2 <;> decide

/-- Witness for `health_flag_lifecycle` at the orderly shutdown trace. -/
theorem health_flag_lifecycle_witness :
    goodTemporal [Ev.store1, Ev.sig, Ev.store0] = true :=
  health_flag_lifecycle [Ev.store1, Ev.sig, Ev.store0] (by decide) (by decide)

/-- Every output of `hexDigit` is a lower-case hex digit. -/
theorem isHexChar_hexDigit (n : Nat) : isHexChar (hexDigit n) = true := by
  have h : n % 16 < 16 := Nat.mod_lt _ (by decide)
  have go : ∀ i : Fin 16, isHexChar (hexTable.getD i.val '0') = true := by decide
  exact go ⟨n % 16, h⟩

set_option maxRecDepth 4096 in
/-- Forcing `(b & 0x0f) | 0x40` on byte 6 makes its high nibble render
as the version digit '4'. -/
theorem version_nibble : ∀ x : Fin 256, hexDigit (((x.val &&& 15) ||| 64) / 16) = '4' := by
  decide

set_option maxRecDepth 4096 in
/-- Forcing `(b & 0x3f) | 0x80` on byte 8 makes its high nibble render
as one of the RFC 4122 variant digits '8', '9', 'a', 'b'. -/
theorem variant_nibble : ∀ x : Fin 256,
    hexDigit (((x.val &&& 63) ||| 128) / 16) = '8' ∨
    hexDigit (((x.val &&& 63) ||| 128) / 16) = '9' ∨
    hexDigit (((x.val &&& 63) ||| 128) / 16) = 'a' ∨
    hexDigit (((x.val &&& 63) ||| 128) / 16) = 'b' := by
  decide

set_option maxHeartbeats 1000000 in
/-- Whatever 16 random bytes `crypto/rand` yields, the identifier
produced by `uuid.NewRandom().String()` is a syntactically valid
version-4 UUID string. -/
theorem uuid_valid (b0 b1 b2 b3 b4 b5 b6 b7 b8 b9 b10 b11 b12 b13 b14 b15 : Fin 256) :
    isValidUUIDv4 (uuidNewRandomString b0 b1 b2 b3 b4 b5 b6 b7 b8 b9 b10 b11 b12 b13 b14 b15)
      = true := by
  simp only [isValidUUIDv4, uuidNewRandomString, byteHexChars, uuidHexPositions,
    List.cons_append, List.nil_append, String.toList]
  simp only [List.getD, List.get?, List.length, List.all_cons, List.all_nil]
  simp [isHexChar_hexDigit, version_nibble b6]
  rcases variant_nibble b8 with h | h | h | h <;> simp [h]

/-- C4 counterexample: when `uuid.NewRandom()` returns an error the
handler skips the substitution (`if err == nil`), so the response
leaves the literal placeholder "${PartyID}" unsubstituted in the
served template. -/
theorem padt_uuid_failure_leaves_placeholder :
    (sendPadtResponse "f.xml" (some "<a>${PartyID}</a>") none RW.init).body
        = "<a>${PartyID}</a>" ∧
    containsTok "<a>${PartyID}</a>".toList partyToken.toList = true := by
  refine ⟨rfl, ?_⟩
  decide

/-- C4 (amended): on every call on which UUID generation succeeds — the
only case in which the code substitutes — the placeholder token in the
served template is replaced (each occurrence, by `strings.ReplaceAll`)
with the freshly generated identifier, and that identifier is a
syntactically valid version-4 UUID string; when generation fails the
template is served with the placeholder intact. -/
theorem padt_uuid_substitution_valid (fp content : String)
    (b0 b1 b2 b3 b4 b5 b6 b7 b8 b9 b10 b11 b12 b13 b14 b15 : Fin 256) :
    (sendPadtResponse fp (some content)
        (some (uuidNewRandomString b0 b1 b2 b3 b4 b5 b6 b7 b8 b9 b10 b11 b12 b13 b14 b15))
        RW.init).body
      = replaceAllStr content partyToken
          (uuidNewRandomString b0 b1 b2 b3 b4 b5 b6 b7 b8 b9 b10 b11 b12 b13 b14 b15) ∧
    isValidUUIDv4 (uuidNewRandomString b0 b1 b2 b3 b4 b5 b6 b7 b8 b9 b10 b11 b12 b13 b14 b15)
      = true :=
  ⟨rfl, uuid_valid b0 b1 b2 b3 b4 b5 b6 b7 b8 b9 b10 b11 b12 b13 b14 b15⟩

/-- C6 counterexample: file reading is not the only observable failure
branch — with the same successfully read template, the response body
differs between a request on which UUID generation succeeded and one on
which it failed, so the `uuid.NewRandom()` error branch also changes
the response. -/
theorem uuid_failure_changes_response :
    (sendPadtResponse "f" (some "<a>${PartyID}</a>") none RW.init).body
      ≠ (sendPadtResponse "f" (some "<a>${PartyID}</a>") (some "x") RW.init).body := by
  decide

/-- C6 (amended): the request-handling pipeline has exactly two failure
branches observable in the response — the file read (`sendPadtResponse`
error path) and UUID generation, whose failure leaves the template
unsubstituted; the body-read failure branch of the logging middleware
(`buf.ReadFrom(r.Body)`) affects only the access log, never the
response writer. -/
theorem failure_branches_characterization (fp content id : String) :
    (sendPadtResponse fp (some content) none RW.init).body = content ∧
    (sendPadtResponse fp (some content) (some id) RW.init).body
      = replaceAllStr content partyToken id ∧
    (∀ (next : Handler) (r : Request) (s : ServerState),
      (logging next r s).w = (next r s).w) := by
  refine ⟨rfl, rfl, fun next r s => ?_⟩
  simp only [logging]
  split <;> rfl

/-- A prefix of a list is a prefix of any right-extension of it. -/
theorem isPrefixOf_append_right (a : List Char) :
    ∀ b t, a.isPrefixOf b = true → a.isPrefixOf (b ++ t) = true := by
  induction a with
  | nil => intro b t _; simp [List.isPrefixOf]
  | cons x xs ih =>
    intro b t h
    cases b with
    | nil => simp [List.isPrefixOf] at h
    | cons y ys =>
      simp only [List.cons_append, List.isPrefixOf, Bool.and_eq_true, beq_iff_eq] at h ⊢
      exact ⟨h.1, ih ys t h.2⟩

/-- When `tok` is a prefix of `s`, re-attaching it to what remains after
dropping its length gives back `s`. -/
theorem prefix_drop (tok : List Char) :
    ∀ s, tok.isPrefixOf s = true → tok ++ s.drop tok.length = s := by
  induction tok with
  | nil => intro s _; simp
  | cons a as ih =>
    intro s h
    cases s with
    | nil => simp [List.isPrefixOf] at h
    | cons b bs =>
      simp only [List.isPrefixOf, Bool.and_eq_true, beq_iff_eq] at h
      simp only [List.length_cons, List.drop_succ_cons, List.cons_append, List.cons.injEq]
      exact ⟨h.1, ih bs h.2⟩

/-- The replacement scan equals the segments rejoined with the
replacement; the segments rejoined with the token give back the input;
and the scan always yields at least one segment. -/
theorem scan_spec (tok rep : List Char) :
    ∀ n s, s.length ≤ n →
      replaceAllCharsAux n s tok rep = joinWith rep (splitOnTokAux n s tok) ∧
      joinWith tok (splitOnTokAux n s tok) = s ∧
      splitOnTokAux n s tok ≠ [] := by
  intro n
  induction n with
  | zero =>
    intro s hs
    have hnil : s = [] := List.eq_nil_of_length_eq_zero (Nat.le_zero.mp hs)
    subst hnil
    refine ⟨rfl, rfl, ?_⟩
    simp [splitOnTokAux]
  | succ n ih =>
    intro s hs
    cases s with
    | nil =>
      refine ⟨rfl, rfl, ?_⟩
      simp [splitOnTokAux]
    | cons c rest =>
      by_cases h : tok ≠ [] ∧ tok.isPrefixOf (c :: rest)
      · have htl : 0 < tok.length := List.length_pos.mpr h.1
        have hdl : ((c :: rest).drop tok.length).length ≤ n := by
          simp only [List.length_drop, List.length_cons]
          simp only [List.length_cons] at hs
          omega
        obtain ⟨ih1, ih2, ih3⟩ := ih ((c :: rest).drop tok.length) hdl
        obtain ⟨p, ps, hps⟩ : ∃ p ps, splitOnTokAux n ((c :: rest).drop tok.length) tok = p :: ps := by
          cases hsp : splitOnTokAux n ((c :: rest).drop tok.length) tok with
          | nil => exact absurd hsp ih3
          | cons p ps => exact ⟨p, ps, rfl⟩
        simp only [replaceAllCharsAux, splitOnTokAux, if_pos h]
        rw [hps] at ih1 ih2 ⊢
        refine ⟨?_, ?_, by simp⟩
        · rw [ih1]; simp [joinWith]
        · show joinWith tok ([] :: p :: ps) = c :: rest
          have : joinWith tok ([] :: p :: ps) = tok ++ joinWith tok (p :: ps) := by
            simp [joinWith]
          rw [this, ih2]
          exact prefix_drop tok (c :: rest) h.2
      · have hrl : rest.length ≤ n := by
          simp only [List.length_cons] at hs; omega
        obtain ⟨ih1, ih2, ih3⟩ := ih rest hrl
        obtain ⟨p, ps, hps⟩ : ∃ p ps, splitOnTokAux n rest tok = p :: ps := by
          cases hsp : splitOnTokAux n rest tok with
          | nil => exact absurd hsp ih3
          | cons p ps => exact ⟨p, ps, rfl⟩
        simp only [replaceAllCharsAux, splitOnTokAux, if_neg h]
        rw [hps] at ih1 ih2 ⊢
        refine ⟨?_, ?_, by simp⟩
        · rw [ih1]
          cases ps with
          | nil => simp [joinWith]
          | cons q qs => simp [joinWith]
        · cases ps with
          | nil =>
            simp only [joinWith] at ih2 ⊢
            rw [ih2]
          | cons q qs =>
            simp only [joinWith] at ih2 ⊢
            rw [List.cons_append, List.cons_append, ih2]

/-- A string with no occurrence of the token passes through the scan
unchanged. -/
theorem replace_no_occurrence (tok rep : List Char) :
    ∀ n s, s.length ≤ n → containsTok s tok = false →
      replaceAllCharsAux n s tok rep = s := by
  intro n
  induction n with
  | zero =>
    intro s hs _
    have hnil : s = [] := List.eq_nil_of_length_eq_zero (Nat.le_zero.mp hs)
    subst hnil; rfl
  | succ n ih =>
    intro s hs hc
    cases s with
    | nil => rfl
    | cons c rest =>
      simp only [containsTok, Bool.or_eq_false_iff] at hc
      have hrl : rest.length ≤ n := by
        simp only [List.length_cons] at hs; omega
      have hcond : ¬(tok ≠ [] ∧ tok.isPrefixOf (c :: rest)) := by
        intro hco
        rw [hco.2] at hc
        exact Bool.noConfusion hc.1
      simp only [replaceAllCharsAux, if_neg hcond]
      rw [ih rest hrl hc.2]

/-- No segment produced by the splitting scan contains an occurrence of
the (non-empty) token: every occurrence is consumed by the scan. -/
theorem split_parts_no_tok (tok : List Char) (htok : tok ≠ []) :
    ∀ n s, s.length ≤ n →
      ∀ p ∈ splitOnTokAux n s tok, containsTok p tok = false := by
  intro n
  induction n with
  | zero =>
    intro s hs p hp
    have hnil : s = [] := List.eq_nil_of_length_eq_zero (Nat.le_zero.mp hs)
    subst hnil
    simp only [splitOnTokAux, List.mem_singleton] at hp
    subst hp
    simp [containsTok, htok]
  | succ n ih =>
    intro s hs p hp
    cases s with
    | nil =>
      simp only [splitOnTokAux, List.mem_singleton] at hp
      subst hp
      simp [containsTok, htok]
    | cons c rest =>
      by_cases h : tok ≠ [] ∧ tok.isPrefixOf (c :: rest)
      · have htl : 0 < tok.length := List.length_pos.mpr h.1
        have hdl : ((c :: rest).drop tok.length).length ≤ n := by
          simp only [List.length_drop, List.length_cons]
          simp only [List.length_cons] at hs
          omega
        simp only [splitOnTokAux, if_pos h, List.mem_cons] at hp
        rcases hp with hp | hp
        · subst hp; simp [containsTok, htok]
        · exact ih _ hdl p hp
      · have hrl : rest.length ≤ n := by
          simp only [List.length_cons] at hs; omega
        have hpre : tok.isPrefixOf (c :: rest) = false := by
          cases hb : tok.isPrefixOf (c :: rest) with
          | false => rfl
          | true => exact absurd ⟨htok, hb⟩ h
        obtain ⟨ih1, ih2, ih3⟩ := scan_spec tok tok n rest hrl
        obtain ⟨q, qs, hqs⟩ : ∃ q qs, splitOnTokAux n rest tok = q :: qs := by
          cases hsp : splitOnTokAux n rest tok with
          | nil => exact absurd hsp ih3
          | cons q qs => exact ⟨q, qs, rfl⟩
        simp only [splitOnTokAux, if_neg h, hqs, List.mem_cons] at hp
        have hqrest : ∃ t, q ++ t = rest := by
          rw [hqs] at ih2
          cases qs with
          | nil => exact ⟨[], by simpa [joinWith] using ih2⟩
          | cons a as =>
            simp only [joinWith] at ih2
            exact ⟨tok ++ joinWith tok (a :: as), by simpa [List.append_assoc] using ih2⟩
        rcases hp with hp | hp
        · subst hp
          simp only [containsTok, Bool.or_eq_false_iff]
          constructor
          · cases hb : tok.isPrefixOf (c :: q) with
            | false => rfl
            | true =>
              exfalso
              obtain ⟨t, ht⟩ := hqrest
              have hext : tok.isPrefixOf ((c :: q) ++ t) = true :=
                isPrefixOf_append_right tok (c :: q) t hb
              rw [List.cons_append, ht] at hext
              rw [hext] at hpre
              exact Bool.noConfusion hpre
          · exact ih rest hrl q (by rw [hqs]; exact List.mem_cons_self q qs)
        · exact ih rest hrl p (by rw [hqs]; exact List.mem_cons_of_mem q hp)

/-- C9: within a single /padt response, `strings.ReplaceAll` replaces
every occurrence of the exact token "${PartyID}" with one and the same
identifier and leaves the characters outside occurrences unchanged: the
result is the token-free segments of the template rejoined with the
identifier, rejoining the same segments with the token reconstructs the
template byte-for-byte, and a template containing no occurrence of the
token is served unchanged. -/
theorem substitution_relational (s id : String) :
    replaceAllStr s partyToken id
      = String.mk (joinWith id.toList (splitOnTok s.toList partyToken.toList)) ∧
    String.mk (joinWith partyToken.toList (splitOnTok s.toList partyToken.toList)) = s ∧
    (containsTok s.toList partyToken.toList = false → replaceAllStr s partyToken id = s) ∧
    (∀ p ∈ splitOnTok s.toList partyToken.toList, containsTok p partyToken.toList = false) := by
  have htok : partyToken.toList ≠ [] := by decide
  obtain ⟨h1, h2, _⟩ :=
    scan_spec partyToken.toList id.toList s.toList.length s.toList le_rfl
  refine ⟨?_, ?_, ?_, ?_⟩
  · show String.mk (replaceAllChars s.toList partyToken.toList id.toList) = _
    rw [replaceAllChars, h1]
    rfl
  · rw [splitOnTok, h2]
    cases s
    rfl
  · intro hc
    show String.mk (replaceAllChars s.toList partyToken.toList id.toList) = s
    rw [replaceAllChars,
      replace_no_occurrence partyToken.toList id.toList s.toList.length s.toList le_rfl hc]
    cases s
    rfl
  · intro p hp
    exact split_parts_no_tok partyToken.toList htok s.toList.length s.toList le_rfl p hp

/-- Witness for `substitution_relational`: a token-free template passes
through unchanged. -/
theorem substitution_relational_witness :
    replaceAllStr "abc" partyToken "x" = "abc" :=
  (substitution_relational "abc" "x").2.2.1 (by decide)

/-- C10: every response carries an X-Request-Id header — the incoming
header value echoed back when non-empty, otherwise the freshly
generated identifier (the decimal nanosecond timestamp) — and the same
identifier, stored in the request context by `tracing`, is the one the
`logging` middleware prints at the head of its access-log line. Holds
on every route and in every branch of every handler. -/
theorem request_id_propagation (env : Env) (nano : Nat) (r : Request) :
    ((app env (nextRequestID nano) r ServerState.init).w.header "X-Request-Id"
      = some (if r.headerXRequestId = "" then nextRequestID nano else r.headerXRequestId)) ∧
    ((app env (nextRequestID nano) r ServerState.init).log.head?
      = some ((if r.headerXRequestId = "" then nextRequestID nano else r.headerXRequestId)
          ++ " " ++ r.method ++ " " ++ r.path ++ " " ++ r.remoteAddr ++ " " ++ r.userAgent)) := by
  constructor <;>
  · simp only [app, tracing, logging, serveMux, routerH, ServerState.init]
    by_cases hcn : r.method = "CONNECT"
    · by_cases hz : r.path = "/healthz"
      · by_cases hh : env.healthy = 1 <;>
          · simp [hcn, hz, hh, healthz, RW.setHeader, RW.writeHeader, RW.init, RW.header,
              RW.write, List.lookup]
            split <;> simp [List.lookup]
      · by_cases hp : r.path = "/padt"
        · cases env.fileRead <;> cases env.uuidRes <;>
            · simp [hcn, hz, hp, sendPadtResponse, substitutePartyId, RW.setHeader,
                RW.writeHeader, RW.init, RW.header, RW.write, List.lookup]
              split <;> simp [List.lookup]
        · by_cases hr : r.path = "/"
          · simp [hcn, hz, hp, hr, index, RW.setHeader, RW.writeHeader, RW.init, RW.header,
              RW.write, List.lookup]
            split <;> simp [List.lookup]
          · simp [hcn, hz, hp, hr, index, httpError, RW.setHeader, RW.writeHeader, RW.init,
              RW.header, RW.write]
            split <;> simp [List.lookup]
    · by_cases hcl : cleanPathStr r.path = r.path
      · by_cases hz : r.path = "/healthz"
        · by_cases hh : env.healthy = 1 <;>
            · simp [hcn, hcl, hz, hh, healthz, RW.setHeader, RW.writeHeader, RW.init,
                RW.header, RW.write, List.lookup,
                (by decide : cleanPathStr "/healthz" = "/healthz")]
              split <;> simp [List.lookup]
        · by_cases hp : r.path = "/padt"
          · cases env.fileRead <;> cases env.uuidRes <;>
              · simp [hcn, hcl, hz, hp, sendPadtResponse, substitutePartyId, RW.setHeader,
                  RW.writeHeader, RW.init, RW.header, RW.write, List.lookup,
                  (by decide : cleanPathStr "/padt" = "/padt")]
                split <;> simp [List.lookup]
          · by_cases hr : r.path = "/"
            · simp [hcn, hcl, hz, hp, hr, index, RW.setHeader, RW.writeHeader, RW.init,
                RW.header, RW.write, List.lookup,
                (by decide : cleanPathStr "/" = "/")]
              split <;> simp [List.lookup]
            · simp [hcn, hcl, hz, hp, hr, index, httpError, RW.setHeader, RW.writeHeader,
                RW.init, RW.header, RW.write]
              split <;> simp [List.lookup]
      · by_cases hg : r.method = "GET" <;>
          · simp [hcn, hcl, hg, redirectHandler, RW.setHeader, RW.writeHeader, RW.init,
              RW.header, RW.write, List.lookup]
            split <;> simp [List.lookup]

end Padt
